import Mathlib

/-
Verification of the CER REGDOCS filing-pipeline core: the filing store and
its state machine (src/cer_scraper/db/state.py, models.py), the three stage
orchestrators (downloader, extractor, analyzer packages), and the tiered
extraction quality gate (extractor/quality.py).

The Python code is shallowly embedded: ORM rows become Lean structures, the
database session becomes an explicit list of filings, filesystem and network
effects become explicit oracles (per-document fetch results, sidecar
presence, write success flags), and every status value stays the plain
string the source uses.  Nominal filesystem behaviour (directory creation,
file writes, directory removal) is modelled as succeeding, matching the
source's use of `ignore_errors=True` and unconditional writes.
-/

namespace CerScraper

/-- One downloadable artifact owned by a filing.  Mirrors the `Document`
model of db/models.py together with the extraction columns the extractor
orchestrator writes (`extraction_status`, `extraction_method`,
`extracted_text`, `char_count`, `page_count`, `extraction_error`); those
columns are modelled from the spec's `documents` table (§6), the copy of
models.py in the snapshot being an earlier phase that does not declare
them even though extractor/__init__.py assigns them. -/
structure Document where
  documentUrl : String
  filename : Option String := none
  localPath : Option String := none
  downloadStatus : String := "pending"
  fileSizeBytes : Option Nat := none
  contentType : Option String := none
  extractionStatus : String := "pending"
  extractionMethod : Option String := none
  extractedText : Option String := none
  charCount : Option Nat := none
  pageCount : Option Nat := none
  extractionError : Option String := none
deriving Repr, DecidableEq

/-- One regulatory filing.  Mirrors the `Filing` model of db/models.py:
five per-stage status strings, `error_message`, `retry_count` and the
owned document collection.  The `analysisJson` column is modelled from the
spec's `filings` table (§6): analyzer/__init__.py assigns
`filing.analysis_json`, but the snapshot's models.py is an earlier phase
that does not declare the column. -/
structure Filing where
  filingId : String
  applicant : Option String := none
  filingType : Option String := none
  proceedingNumber : Option String := none
  title : Option String := none
  url : Option String := none
  statusScraped : String := "pending"
  statusDownloaded : String := "pending"
  statusExtracted : String := "pending"
  statusAnalyzed : String := "pending"
  statusEmailed : String := "pending"
  errorMessage : Option String := none
  retryCount : Nat := 0
  analysisJson : Option String := none
  documents : List Document := []
deriving Repr, DecidableEq

/-- Valid pipeline step names, mirroring `VALID_STEPS` of db/state.py. -/
def VALID_STEPS : List String :=
  ["scraped", "downloaded", "extracted", "analyzed", "emailed"]

/-- Dynamic status-field assignment: mirrors
`setattr(filing, f"status_{step}", status)` in `mark_step_complete`,
restricted to the validated step names. -/
def setStatusField (f : Filing) (step status : String) : Filing :=
  if step = "scraped" then { f with statusScraped := status }
  else if step = "downloaded" then { f with statusDownloaded := status }
  else if step = "extracted" then { f with statusExtracted := status }
  else if step = "analyzed" then { f with statusAnalyzed := status }
  else if step = "emailed" then { f with statusEmailed := status }
  else f

/-- Error bookkeeping of `mark_step_complete`: when an error message is
supplied the filing's `error_message` is overwritten and `retry_count`
is incremented; otherwise both are left untouched. -/
def applyTransitionError (f : Filing) (error : Option String) : Filing :=
  match error with
  | none => f
  | some e => { f with errorMessage := some e, retryCount := f.retryCount + 1 }

/-- Reading of a stage's status field by step name (used to state frame
conditions about `mark_step_complete`). -/
def statusOf (f : Filing) (step : String) : String :=
  if step = "scraped" then f.statusScraped
  else if step = "downloaded" then f.statusDownloaded
  else if step = "extracted" then f.statusExtracted
  else if step = "analyzed" then f.statusAnalyzed
  else f.statusEmailed

/-- Lookup by REGDOCS filing id, first match: mirrors `get_filing_by_id`
(a `SELECT ... WHERE filing_id = ...` taking the first row). -/
def getFilingById : List Filing → String → Option Filing
  | [], _ => none
  | f :: t, fid => if f.filingId = fid then some f else getFilingById t fid

/-- In-place mutation of the row found by `get_filing_by_id`: the first
filing whose id matches is replaced by `g` applied to it. -/
def updateFilingById : List Filing → String → (Filing → Filing) → List Filing
  | [], _, _ => []
  | f :: t, fid, g =>
      if f.filingId = fid then g f :: t else f :: updateFilingById t fid g

/-- Model of `mark_step_complete` (db/state.py): validates the step name
(`ValueError` otherwise), looks the filing up (`ValueError` when absent),
sets `status_<step>`, and on an error message also sets `error_message`
and increments `retry_count`; the session is then committed. -/
def markStepComplete (db : List Filing) (filingId step status : String)
    (error : Option String) : Except String (List Filing) :=
  if step ∈ VALID_STEPS then
    match getFilingById db filingId with
    | none => Except.error "Filing not found"
    | some _ =>
        Except.ok (updateFilingById db filingId
          (fun f => applyTransitionError (setStatusField f step status) error))
  else Except.error "Invalid step"

/-- Metadata attributes the scraper passes to `create_filing` as keyword
arguments (scraper/__init__.py line 241). -/
structure FilingAttrs where
  applicant : Option String := none
  filingType : Option String := none
  proceedingNumber : Option String := none
  title : Option String := none
  url : Option String := none
deriving Repr, DecidableEq

/-- Model of `create_filing` (db/state.py): inserts a new filing with
`status_scraped = "success"`, all other statuses pending and
`retry_count = 0`; the unique constraint on `filing_id` raises on a
duplicate, leaving the table unchanged. -/
def createFiling (db : List Filing) (filingId : String) (attrs : FilingAttrs) :
    Except String (List Filing) :=
  if (getFilingById db filingId).isSome then
    Except.error "DuplicateError"
  else
    Except.ok (db ++ [{ filingId := filingId
                        applicant := attrs.applicant
                        filingType := attrs.filingType
                        proceedingNumber := attrs.proceedingNumber
                        title := attrs.title
                        url := attrs.url
                        statusScraped := "success" }])

/-- One filing-store mutation: either a creation by the discovery stage or
a stage transition by an orchestrator. -/
inductive StoreOp where
  | createOp (filingId : String) (attrs : FilingAttrs)
  | markStep (filingId step status : String) (error : Option String)

/-- Application of one store operation to the table; a raised
`ValueError` / duplicate error leaves the table unchanged. -/
def applyStoreOp (db : List Filing) : StoreOp → List Filing
  | StoreOp.createOp fid attrs =>
      match createFiling db fid attrs with
      | Except.ok db' => db'
      | Except.error _ => db
  | StoreOp.markStep fid step status error =>
      match markStepComplete db fid step status error with
      | Except.ok db' => db'
      | Except.error _ => db

/-- Sequential execution of a list of store operations. -/
def runStoreOps (db : List Filing) (ops : List StoreOp) : List Filing :=
  ops.foldl applyStoreOp db

/-
Extraction quality gate (extractor/quality.py). Texts are embedded as
`List Char`.  The helper functions `listLength`, `countTri`,
`firstOccurrences` and `sortByCountDesc` implement `len`, `Counter`
counting, `dict` first-insertion key order and the stable
descending-by-count order of `Counter.most_common`; they are written
tail-recursively so that concrete witnesses evaluate inside the kernel.
-/

/-- Whitespace in the sense of Python's `str.strip` and of `\s` in the
`re` module, for the ASCII range: space, tab, newline, carriage return,
vertical tab and form feed. -/
def isPythonWhitespace (c : Char) : Bool :=
  c = ' ' || c = '\t' || c = '\n' || c = '\r' || c = '\x0b' || c = '\x0c'

/-- Characters matched by `_GARBLE_PATTERN` of quality.py: the Unicode
replacement character, NUL through BS, vertical tab, form feed, and SO
through US. -/
def isGarbleChar (c : Char) : Bool :=
  c.toNat = 0xFFFD || c.toNat ≤ 0x08 || c.toNat = 0x0B || c.toNat = 0x0C ||
  (0x0E ≤ c.toNat && c.toNat ≤ 0x1F)

/-- Tail-recursive length accumulator (kernel-evaluation friendly `len`). -/
def listLengthGo : Nat → List Char → Nat
  | acc, [] => acc
  | 0, _ :: xs => listLengthGo 1 xs
  | m + 1, _ :: xs => listLengthGo (m + 2) xs

/-- Length of a character list; agrees with `List.length`. -/
def listLength (l : List Char) : Nat := listLengthGo 0 l

/-- All overlapping 3-character windows of a text, in order: mirrors
`[sample[i : i + 3] for i in range(len(sample) - 2)]`. -/
def trigrams : List Char → List (Char × Char × Char)
  | a :: b :: c :: rest => (a, b, c) :: trigrams (b :: c :: rest)
  | _ => []

/-- Tail-recursive occurrence counter for one trigram. -/
def countTriGo (t : Char × Char × Char) : Nat → List (Char × Char × Char) → Nat
  | acc, [] => acc
  | 0, x :: xs => countTriGo t (if x = t then 1 else 0) xs
  | m + 1, x :: xs => countTriGo t (if x = t then m + 2 else m + 1) xs

/-- Number of occurrences of trigram `t` in `l` (the `Counter` count). -/
def countTri (l : List (Char × Char × Char)) (t : Char × Char × Char) : Nat :=
  countTriGo t 0 l

/-- Distinct trigrams in first-occurrence order (the key order of a
Python `Counter`, which is a `dict` preserving first insertion). -/
def firstOccurrencesGo (acc : List (Char × Char × Char)) :
    List (Char × Char × Char) → List (Char × Char × Char)
  | [] => acc
  | x :: xs =>
      if x ∈ acc then firstOccurrencesGo acc xs
      else firstOccurrencesGo (acc ++ [x]) xs

/-- Distinct trigrams of `l` in first-occurrence order. -/
def firstOccurrences (l : List (Char × Char × Char)) :
    List (Char × Char × Char) :=
  firstOccurrencesGo [] l

/-- Stable insertion into a count-descending list: an entry is placed
after all existing entries with a count at least as large, matching the
stable sort underlying `Counter.most_common`. -/
def insertByCountDesc (p : (Char × Char × Char) × Nat) :
    List ((Char × Char × Char) × Nat) → List ((Char × Char × Char) × Nat)
  | [] => [p]
  | q :: rest => if p.2 ≤ q.2 then q :: insertByCountDesc p rest else p :: q :: rest

/-- Stable insertion sort by descending count. -/
def sortByCountDesc (acc : List ((Char × Char × Char) × Nat)) :
    List ((Char × Char × Char) × Nat) → List ((Char × Char × Char) × Nat)
  | [] => acc
  | p :: rest => sortByCountDesc (insertByCountDesc p acc) rest

/-- Model of `Counter(trigrams).most_common(n)`: key/count pairs in
first-insertion order, stably sorted by count descending, truncated to
the `n` largest. -/
def mostCommon (l : List (Char × Char × Char)) (n : Nat) :
    List ((Char × Char × Char) × Nat) :=
  (sortByCountDesc [] ((firstOccurrences l).map (fun k => (k, countTri l k)))).take n

/-- Test of `re.search(r"\S", trigram)`: at least one character of the
window is not whitespace. -/
def trigramHasNonWhitespace (t : Char × Char × Char) : Bool :=
  !isPythonWhitespace t.1 || !isPythonWhitespace t.2.1 || !isPythonWhitespace t.2.2

/-- Modelled from the spec: the `ExtractionSettings` configuration class
is imported from `cer_scraper.config.settings` by the extractor modules
but absent from the snapshot's copy of settings.py (an earlier phase);
its fields follow the spec's configuration surface (§6) and the reads in
quality.py.  The float thresholds (spec defaults 0.05 and 0.10) are
modelled as exact fractions `num/den`. -/
structure ExtractionSettings where
  maxPagesForExtraction : Nat := 50
  maxPagesForOcr : Nat := 20
  minCharsPerPage : Nat := 50
  minCharsPerPageOcr : Nat := 25
  garbleRatioThresholdNum : Nat := 5
  garbleRatioThresholdDen : Nat := 100
  ocrGarbleRatioThresholdNum : Nat := 10
  ocrGarbleRatioThresholdDen : Nat := 100
deriving Repr, DecidableEq

/-- Result of one PDF text-extraction attempt (extractor/types.py);
`method` carries the `ExtractionMethod` enum value string. -/
structure ExtractionResult where
  success : Bool
  markdown : List Char := []
  method : String := "failed"
  pageCount : Nat := 0
  charCount : Nat := 0
  error : Option String := none
deriving Repr, DecidableEq

/-- Minimum-content check of `passes_quality_check`:
`result.char_count < max(100, page_count * settings.min_chars_per_page)`
fails the gate. -/
def passesMinimumContent (charCount pageCount minCharsPerPage : Nat) : Bool :=
  !(charCount < max 100 (pageCount * minCharsPerPage))

/-- Model of `passes_quality_check` (quality.py): empty/whitespace-only
rejection, minimum content, garble ratio (the ratio comparison
`garble_chars / total_chars > threshold` is stated cross-multiplied),
then the repetition check over the ten most common trigrams of the
first 10,000 characters. -/
def passesQualityCheck (result : ExtractionResult) (pageCount : Nat)
    (settings : ExtractionSettings) : Bool :=
  if result.markdown.all isPythonWhitespace then false
  else if !passesMinimumContent result.charCount pageCount settings.minCharsPerPage then
    false
  else
    let garbleChars := listLength (result.markdown.filter isGarbleChar)
    let totalChars := listLength result.markdown
    if 0 < totalChars &&
        settings.garbleRatioThresholdNum * totalChars <
          garbleChars * settings.garbleRatioThresholdDen then
      false
    else
      let sample := result.markdown.take 10000
      if 3 ≤ listLength sample then
        if (mostCommon (trigrams sample) 10).any
            (fun p => decide (200 < p.2) && trigramHasNonWhitespace p.1) then
          false
        else true
      else true

/-- Model of `passes_ocr_quality_check` (quality.py): looser
minimum-content floor and garble threshold, no repetition check. -/
def passesOcrQualityCheck (result : ExtractionResult) (pageCount : Nat)
    (settings : ExtractionSettings) : Bool :=
  if result.markdown.all isPythonWhitespace then false
  else if result.charCount < max 50 (pageCount * settings.minCharsPerPageOcr) then
    false
  else
    let garbleChars := listLength (result.markdown.filter isGarbleChar)
    let totalChars := listLength result.markdown
    if 0 < totalChars &&
        settings.ocrGarbleRatioThresholdNum * totalChars <
          garbleChars * settings.ocrGarbleRatioThresholdDen then
      false
    else true

/-- Default-valued settings record used by concrete gate evaluations. -/
def defaultQualitySettings : ExtractionSettings := {}

/-- Alternating two-character run of length `2 * n`. -/
def altRun (a b : Char) (n : Nat) : List Char := (List.replicate n [a, b]).flatten

/-- Text whose trigram `aaa` occurs 201 times while ten distinct
whitespace-only trigrams each occur at least 202 times, so that `aaa`
is ranked eleventh by `Counter.most_common`. -/
def repetitionEvasionText : List Char :=
  List.replicate 203 'a' ++
  List.replicate 204 ' ' ++ List.replicate 204 '\t' ++
  List.replicate 204 '\n' ++ List.replicate 204 '\r' ++
  altRun ' ' '\t' 204 ++ altRun ' ' '\n' 204 ++ altRun '\t' '\n' 204

/-- Extraction result wrapping `repetitionEvasionText` with a char count
that clears the minimum-content floor. -/
def evasionResult : ExtractionResult :=
  { success := true, markdown := repetitionEvasionText, charCount := 5000 }

/-- Extraction result whose text is a single 202-character run of `a`,
so the non-whitespace trigram `aaa` occurs exactly 200 times. -/
def exactly200Result : ExtractionResult :=
  { success := true, markdown := List.replicate 202 'a', charCount := 5000 }

/-
Download orchestrator (downloader/__init__.py).  The network is an
oracle `fetch : Nat → DownloadResult` giving the outcome of
`download_pdf` for the document at 1-based position `idx` (download_pdf
never raises: every failure path returns a `DownloadResult`).  The
filing's on-disk directory is a boolean: a successful `download_pdf`
materialises the directory, the all-or-nothing `shutil.rmtree` removes
it.
-/

/-- Outcome of a single `download_pdf` call (downloader/service.py). -/
structure DownloadResult where
  success : Bool
  bytesDownloaded : Nat := 0
  error : Option String := none
deriving Repr, DecidableEq

/-- Document reset applied by the all-or-nothing cleanup of
`_download_filing`: `d.download_status = "failed"; d.local_path = None`. -/
def resetDocAfterFailure (d : Document) : Document :=
  { d with downloadStatus := "failed", localPath := none }

/-- Result tuple of `_download_filing` together with the mutated document
rows and the directory state. -/
structure DownloadFilingOutcome where
  success : Bool
  errorMsg : Option String
  pdfCount : Nat
  totalBytes : Nat
  docs : List Document
  dirExists : Bool
deriving Repr, DecidableEq

/-- Document loop of `_download_filing`: sequential fetches; the first
failure deletes the filing directory and resets every document row
(both the already-updated prefix and the untouched remainder). -/
def downloadDocsLoop (fetch : Nat → DownloadResult) (filingDir : String) :
    Nat → List Document → List Document → Nat → Nat → Bool →
    DownloadFilingOutcome
  | _, [], processed, pdfCount, totalBytes, dirExists =>
      ⟨true, none, pdfCount, totalBytes, processed.reverse, dirExists⟩
  | idx, d :: rest, processed, pdfCount, totalBytes, _ =>
      let r := fetch idx
      if r.success then
        let d' := { d with
          localPath := some (filingDir ++ "/doc_" ++ toString idx ++ ".pdf"),
          fileSizeBytes := some r.bytesDownloaded,
          downloadStatus := "success" }
        downloadDocsLoop fetch filingDir (idx + 1) rest (d' :: processed)
          (pdfCount + 1) (totalBytes + r.bytesDownloaded) true
      else
        ⟨false, some ("document " ++ toString idx ++ " failed"), 0, 0,
          (processed.reverse ++ d :: rest).map resetDocAfterFailure, false⟩

/-- Model of `_download_filing`: an empty document list is an immediate
success with no work; otherwise the sequential download loop runs. -/
def downloadFiling (fetch : Nat → DownloadResult) (filingDir : String)
    (docs : List Document) (dirExists : Bool) : DownloadFilingOutcome :=
  match docs with
  | [] => ⟨true, none, 0, 0, [], dirExists⟩
  | _ => downloadDocsLoop fetch filingDir 1 docs [] 0 0 dirExists

/-- Per-filing contribution to a stage's batch counters. -/
structure StageDelta where
  succeededInc : Nat := 0
  failedInc : Nat := 0
  skippedInc : Nat := 0
  pdfsInc : Nat := 0
  bytesInc : Nat := 0
  docsExtractedInc : Nat := 0
  docsFailedInc : Nat := 0
deriving Repr, DecidableEq

/-- Per-filing body of `download_filings`: run `_download_filing`, then
`mark_step_complete(..., "downloaded", "success"|"failed", error)` and
commit; a success increments `filings_succeeded` (and the PDF/byte
totals), a failure increments `filings_failed`.  `filings_skipped` is
never incremented by the download orchestrator. -/
def processFilingDownload (fetch : Nat → DownloadResult) (filingDir : String)
    (filing : Filing) (dirExists : Bool) : Filing × Bool × StageDelta :=
  let o := downloadFiling fetch filingDir filing.documents dirExists
  let filing' := { filing with documents := o.docs }
  if o.success then
    (setStatusField filing' "downloaded" "success", o.dirExists,
     { succeededInc := 1, pdfsInc := o.pdfCount, bytesInc := o.totalBytes })
  else
    (applyTransitionError (setStatusField filing' "downloaded" "failed") o.errorMsg,
     o.dirExists, { failedInc := 1 })

/-
Extraction orchestrator (extractor/__init__.py).  The tiered extraction
service is an oracle `extract : Nat → ExtractionResult` giving the
result of `extract_document` for the document at 1-based position
`idx`; `sidecarNonempty idx` tells whether that document's markdown
sidecar already exists with content (`should_extract` returns the
negation).  Markdown writes are modelled as succeeding.
-/

/-- Effect of one iteration of the document loop of
`_extract_filing_documents` on one document: the updated row, how many
`extract_document` (tier-cascade) invocations were performed, and the
contributions to the success / failure counters and error messages. -/
structure ExtractStepResult where
  newDoc : Document
  tierCalls : Nat
  succInc : Nat
  failInc : Nat
  errMsg : Option String
deriving Repr, DecidableEq

/-- Row update for a successful extraction: status, method, text, char
and page counts copied from the tier-cascade result. -/
def docAfterExtractOk (doc : Document) (r : ExtractionResult) : Document :=
  { doc with
      extractionStatus := "success",
      extractionMethod := some r.method,
      extractedText := some (String.mk r.markdown),
      charCount := some r.charCount,
      pageCount := some r.pageCount }

/-- Row update for a failed tier cascade: status `"failed"` and the
typed error recorded in `extraction_error`. -/
def docAfterExtractFail (doc : Document) (r : ExtractionResult) : Document :=
  { doc with
      extractionStatus := "failed",
      extractionError := r.error }

/-- One iteration of the document loop: skip documents that were not
successfully downloaded; building `Path(doc.local_path)` raises when
`local_path` is null (`TypeError`, escaping to the orchestrator's
per-filing handler); an existing non-empty sidecar counts as success
with no tier invocation; otherwise the tier cascade runs once and the
row is updated from its result. -/
def extractDocStep (extract : Nat → ExtractionResult)
    (sidecarNonempty : Nat → Bool) (idx : Nat) (doc : Document) :
    Except String ExtractStepResult :=
  if doc.downloadStatus ≠ "success" then Except.ok ⟨doc, 0, 0, 0, none⟩
  else
    match doc.localPath with
    | none => Except.error "TypeError: expected str, got None"
    | some _ =>
        if sidecarNonempty idx then Except.ok ⟨doc, 0, 1, 0, none⟩
        else
          let r := extract idx
          if r.success then
            Except.ok ⟨docAfterExtractOk doc r, 1, 1, 0, none⟩
          else
            Except.ok ⟨docAfterExtractFail doc r, 1, 0, 1,
              some ("Document " ++ toString idx ++ " failed")⟩

/-- Sequential run of the document loop, collecting each iteration's
effect; an exception aborts the filing. -/
def extractDocsGo (extract : Nat → ExtractionResult)
    (sidecarNonempty : Nat → Bool) :
    Nat → List Document → List ExtractStepResult →
    Except String (List ExtractStepResult)
  | _, [], acc => Except.ok acc.reverse
  | idx, d :: rest, acc =>
      match extractDocStep extract sidecarNonempty idx d with
      | Except.error e => Except.error e
      | Except.ok s => extractDocsGo extract sidecarNonempty (idx + 1) rest (s :: acc)

/-- Return value of `_extract_filing_documents` plus the mutated rows and
the per-iteration effects. -/
structure ExtractFilingOutcome where
  hasAnySuccess : Bool
  errorSummary : Option String
  successCount : Nat
  failCount : Nat
  docs : List Document
  steps : List ExtractStepResult
deriving Repr, DecidableEq

/-- Join of collected error messages: `"; ".join(...)` when non-empty,
`None` otherwise. -/
def joinErrorMessages : List String → Option String
  | [] => none
  | m :: rest =>
      some (rest.foldl (fun acc x => acc ++ "; " ++ x) m)

/-- Model of `_extract_filing_documents`: an empty document list returns
`(True, None, 0, 0)`; otherwise the loop runs and the filing has a
success exactly when `success_count > 0`. -/
def extractFilingDocuments (extract : Nat → ExtractionResult)
    (sidecarNonempty : Nat → Bool) (docs : List Document) :
    Except String ExtractFilingOutcome :=
  match docs with
  | [] => Except.ok ⟨true, none, 0, 0, [], []⟩
  | _ =>
      match extractDocsGo extract sidecarNonempty 1 docs [] with
      | Except.error e => Except.error e
      | Except.ok steps =>
          let succ := (steps.map (fun s => s.succInc)).sum
          let fail := (steps.map (fun s => s.failInc)).sum
          Except.ok ⟨decide (0 < succ),
            joinErrorMessages (steps.filterMap (fun s => s.errMsg)),
            succ, fail, steps.map (fun s => s.newDoc), steps⟩

/-- Per-filing body of `extract_filings`: on a result with at least one
success, `mark_step_complete(..., "extracted", "success")`; otherwise a
failure transition carrying the error summary (or the default message).
An unexpected exception rolls the session back (discarding the row
mutations) and records a generic failure. -/
def processFilingExtraction (extract : Nat → ExtractionResult)
    (sidecarNonempty : Nat → Bool) (filing : Filing) : Filing × StageDelta :=
  match extractFilingDocuments extract sidecarNonempty filing.documents with
  | Except.ok o =>
      let filing' := { filing with documents := o.docs }
      if o.hasAnySuccess then
        (setStatusField filing' "extracted" "success",
         { succeededInc := 1, docsExtractedInc := o.successCount,
           docsFailedInc := o.failCount })
      else
        let err := o.errorSummary.getD "No documents successfully extracted"
        (applyTransitionError (setStatusField filing' "extracted" "failed")
           (some err),
         { failedInc := 1, docsFailedInc := o.failCount })
  | Except.error _ =>
      (applyTransitionError (setStatusField filing "extracted" "failed")
         (some "Unexpected error"),
       { failedInc := 1 })

/-
Analysis orchestrator (analyzer/__init__.py).  The Claude CLI service is
an oracle `AnalysisResult`; the sidecar `analysis.json` write is an
oracle boolean `fsOk` (an `OSError` on that write is caught), and the
per-filing database commit is an oracle boolean `dbOk` (a commit
failure lands in the per-filing exception handler, which rolls back and
records a generic failure).
-/

/-- Result of `analyze_filing_text` (analyzer/types.py), restricted to
the fields the orchestrator inspects; `analysisJson` carries the
validated output in already-serialized form (metric fields such as
timings and token counts are not read by the orchestrator and are
omitted). -/
structure AnalysisResult where
  success : Bool
  analysisJson : Option String := none
  error : Option String := none
deriving Repr, DecidableEq

/-- Documents contributing to the assembled analysis text: successful
extraction and truthy (non-null, non-empty) `extracted_text`. -/
def docContributesText (d : Document) : Bool :=
  d.extractionStatus = "success" &&
    (match d.extractedText with
     | some s => !(s = "")
     | none => false)

/-- Number of documents included by `assemble_filing_text`. -/
def includedCount (docs : List Document) : Nat :=
  (docs.filter docContributesText).length

/-- Serialization `json.dumps(result.analysis_json)` of the validated
payload (`json.dumps(None)` yields `"null"`). -/
def dumpsAnalysisJson : Option String → String
  | some s => s
  | none => "null"

/-- Return value of `_analyze_single_filing` plus sidecar bookkeeping. -/
structure SingleAnalysisOutcome where
  success : Bool
  errorMsg : Option String
  wasSkipped : Bool
  filing : Filing
  sidecarAttempted : Bool
  sidecarWritten : Bool
deriving Repr, DecidableEq

/-- Model of `_analyze_single_filing`: zero included documents is a
vacuous-success skip; on service success the sidecar is written
best-effort (only when some document has a `local_path` to derive the
filing directory from, and the payload is non-null; an `OSError` is
caught) and the database column `analysis_json` is assigned;
`insufficient_text` is a skip; any other service error is a failure. -/
def analyzeSingleFiling (svc : AnalysisResult) (fsOk : Bool)
    (filing : Filing) : SingleAnalysisOutcome :=
  if includedCount filing.documents = 0 then
    ⟨true, none, true, filing, false, false⟩
  else if svc.success then
    let hasDir := filing.documents.any (fun d => d.localPath.isSome)
    let attempted := hasDir && svc.analysisJson.isSome
    let written := attempted && fsOk
    ⟨true, none, false,
      { filing with analysisJson := some (dumpsAnalysisJson svc.analysisJson) },
      attempted, written⟩
  else if svc.error = some "insufficient_text" then
    ⟨true, none, true, filing, false, false⟩
  else
    ⟨false, svc.error, false, filing, false, false⟩

/-- Per-filing body of `analyze_filings`: skip and plain success both
mark `analyzed = "success"` (counted under `filings_skipped` and
`filings_succeeded` respectively); a service failure marks
`analyzed = "failed"` with the error; a commit failure (`dbOk = false`)
lands in the exception handler: rollback to the pre-operation row, then
a failure transition with the generic message. -/
def processFilingAnalysis (svc : AnalysisResult) (fsOk dbOk : Bool)
    (filing : Filing) : Filing × StageDelta :=
  let r := analyzeSingleFiling svc fsOk filing
  if dbOk then
    if r.success && r.wasSkipped then
      (setStatusField r.filing "analyzed" "success", { skippedInc := 1 })
    else if r.success then
      (setStatusField r.filing "analyzed" "success", { succeededInc := 1 })
    else
      (applyTransitionError (setStatusField r.filing "analyzed" "failed")
         (some (r.errorMsg.getD "Analysis failed")),
       { failedInc := 1 })
  else
    (applyTransitionError (setStatusField filing "analyzed" "failed")
       (some "Unexpected error"),
     { failedInc := 1 })

/-
Eligibility queries (db/state.py) and how each orchestrator invokes
them.
-/

/-- Modelled from the spec: `PipelineSettings` as far as the retry
ceiling is concerned — the snapshot's settings.py declares
`max_retry_count: int = 3`; the other pipeline fields are not read by
the embedded code paths. -/
structure PipelineSettings where
  maxRetryCount : Nat := 3
deriving Repr, DecidableEq

/-- Model of `get_filings_for_download`: scraped succeeded, not yet
downloaded, retries not exhausted. -/
def getFilingsForDownload (db : List Filing) (maxRetries : Nat) : List Filing :=
  db.filter (fun f =>
    f.statusScraped = "success" && !(f.statusDownloaded = "success") &&
      decide (f.retryCount < maxRetries))

/-- Model of `get_filings_for_extraction`: downloaded succeeded, not yet
extracted, retries not exhausted. -/
def getFilingsForExtraction (db : List Filing) (maxRetries : Nat) : List Filing :=
  db.filter (fun f =>
    f.statusDownloaded = "success" && !(f.statusExtracted = "success") &&
      decide (f.retryCount < maxRetries))

/-- Modelled from the spec: `get_filings_for_analysis` is imported from
`cer_scraper.db.state` by the analyzer but absent from the snapshot's
state.py (an earlier phase); per the spec's `eligibleForStage` pattern it
selects filings with extraction succeeded, analysis not yet succeeded and
retries not exhausted. -/
def getFilingsForAnalysis (db : List Filing) (maxRetries : Nat) : List Filing :=
  db.filter (fun f =>
    f.statusExtracted = "success" && !(f.statusAnalyzed = "success") &&
      decide (f.retryCount < maxRetries))

/-- Eligibility query invocation of `download_filings`:
`get_filings_for_download(session, pipeline_settings.max_retry_count)`. -/
def downloadFilingsQuery (ps : PipelineSettings) (db : List Filing) : List Filing :=
  getFilingsForDownload db ps.maxRetryCount

/-- Eligibility query invocation of `extract_filings`: the orchestrator
sets `max_retries = 3` locally (extractor/__init__.py lines 181-184) and
does not consult `PipelineSettings.max_retry_count`. -/
def extractFilingsQuery (db : List Filing) : List Filing :=
  getFilingsForExtraction db 3

/-- Eligibility query invocation of `analyze_filings`: the orchestrator
likewise hardcodes `max_retries = 3` (analyzer/__init__.py lines 214-217). -/
def analyzeFilingsQuery (db : List Filing) : List Filing :=
  getFilingsForAnalysis db 3

/-- Specification form of the extraction document loop: the per-iteration
effects of `extractDocsGo` without the reversed accumulator, used to
reason about the loop by structural induction. -/
def extractStepsSpec (extract : Nat → ExtractionResult)
    (sidecarNonempty : Nat → Bool) :
    Nat → List Document → Except String (List ExtractStepResult)
  | _, [] => Except.ok []
  | idx, d :: rest =>
      match extractDocStep extract sidecarNonempty idx d with
      | Except.error e => Except.error e
      | Except.ok s =>
          match extractStepsSpec extract sidecarNonempty (idx + 1) rest with
          | Except.error e => Except.error e
          | Except.ok l => Except.ok (s :: l)

/-- Oracle returning a failed extraction for every document. -/
def alwaysFailExtract : Nat → ExtractionResult :=
  fun _ => { success := false, error := some "all_methods_failed" }

/-- Oracle returning a passing extraction for every document. -/
def alwaysOkExtract : Nat → ExtractionResult :=
  fun _ => { success := true, markdown := ['h', 'i'], method := "pymupdf4llm",
             pageCount := 1, charCount := 300 }

/-- Oracle: no markdown sidecar exists yet for any document. -/
def noSidecar : Nat → Bool := fun _ => false

/-- Oracle: a non-empty markdown sidecar exists for every document. -/
def allSidecars : Nat → Bool := fun _ => true

/-- Filing whose only document was never successfully downloaded, yet
whose stage statuses make it eligible for the extraction query. -/
def undownloadedDocFiling : Filing :=
  { filingId := "F2", statusScraped := "success",
    statusDownloaded := "success",
    documents := [{ documentUrl := "u", downloadStatus := "failed" }] }

/-- Filing with no documents at all, eligible for every stage. -/
def emptyDocFiling : Filing :=
  { filingId := "F0", statusScraped := "success",
    statusDownloaded := "success", statusExtracted := "success" }

/-- First downloaded document of the idempotency witness filing. -/
def sidecarDocOne : Document :=
  { documentUrl := "u1", downloadStatus := "success", localPath := some "p1" }

/-- Second downloaded document of the idempotency witness filing. -/
def sidecarDocTwo : Document :=
  { documentUrl := "u2", downloadStatus := "success", localPath := some "p2" }

/-- Filing with two downloaded documents, used by the idempotency and
extraction-tolerance witnesses. -/
def sidecarFiling : Filing :=
  { filingId := "F3", statusScraped := "success",
    statusDownloaded := "success",
    documents := [sidecarDocOne, sidecarDocTwo] }

/-- Expected loop outcome when both documents of `sidecarFiling` already
have non-empty sidecars: two skip-successes, no tier invocation. -/
def sidecarRunOutcome : ExtractFilingOutcome :=
  ⟨true, none, 2, 0, [sidecarDocOne, sidecarDocTwo],
   [⟨sidecarDocOne, 0, 1, 0, none⟩, ⟨sidecarDocTwo, 0, 1, 0, none⟩]⟩

/-- Oracle for which every document fetch succeeds. -/
def alwaysOkFetch : Nat → DownloadResult :=
  fun _ => { success := true, bytesDownloaded := 7 }

/-- Filing with zero documents, pending download. -/
def zeroDocPendingFiling : Filing :=
  { filingId := "F6", statusScraped := "success" }

/-- Filing with extraction retries exhausted relative to a configured
ceiling of 2 but not relative to the hardcoded 3. -/
def retryTwoFiling : Filing :=
  { filingId := "F4", statusScraped := "success",
    statusDownloaded := "success", retryCount := 2 }

/-- Pipeline settings with a non-default retry ceiling. -/
def ceilingTwoSettings : PipelineSettings := { maxRetryCount := 2 }

/-- Analysis service result for witnesses: a validated structured
success. -/
def svcStructuredOk : AnalysisResult :=
  { success := true, analysisJson := some "validated-payload" }

/-- Filing with one successfully extracted document carrying text and a
local path, processed by the analysis stage. -/
def extractedFiling : Filing :=
  { filingId := "F5", statusScraped := "success",
    statusDownloaded := "success", statusExtracted := "success",
    documents := [{ documentUrl := "u", downloadStatus := "success",
                    localPath := some "p",
                    extractionStatus := "success",
                    extractedText := some "body text" }] }

/-- Filing carrying an old error message and an accumulated retry
count, used by the mark-step witnesses. -/
def witnessFilingBase : Filing :=
  { filingId := "W1", statusScraped := "success",
    errorMessage := some "old failure", retryCount := 2 }

/-- Expected row after a failed download transition with an error. -/
def witnessFilingFailed : Filing :=
  { filingId := "W1", statusScraped := "success",
    statusDownloaded := "failed", errorMessage := some "boom",
    retryCount := 3 }

/-- Expected row after the subsequent successful download transition. -/
def witnessFilingFinal : Filing :=
  { filingId := "W1", statusScraped := "success",
    statusDownloaded := "success", errorMessage := some "boom",
    retryCount := 3 }

/-- Expected row after a successful extraction transition applied to the
base row: only the extracted status changes. -/
def witnessFilingExtracted : Filing :=
  { filingId := "W1", statusScraped := "success",
    statusExtracted := "success", errorMessage := some "old failure",
    retryCount := 2 }

/-- Store table for the mark-step witnesses. -/
def witnessDb : List Filing := [witnessFilingBase]

/-- Store operations for the retry-monotonicity witness. -/
def witnessOps : List StoreOp :=
  [StoreOp.markStep "W1" "downloaded" "failed" (some "boom"),
   StoreOp.markStep "W1" "downloaded" "success" none]

/-- Extraction result of a one-page document with exactly
`1 * min_chars_per_page = 50` meaningful characters under the default
settings. -/
def fiftyCharResult : ExtractionResult :=
  { success := true, markdown := List.replicate 60 'a', charCount := 50 }

/-- Oracle for the C1 witness: the second document fetch fails. -/
def secondFetchFails : Nat → DownloadResult :=
  fun idx => if idx = 2 then { success := false, error := some "HTTP 500" }
             else { success := true, bytesDownloaded := 10 }

/-- Concrete filing with three pending documents for the C1 witness. -/
def threeDocFiling : Filing :=
  { filingId := "F1", statusScraped := "success",
    documents := [{ documentUrl := "u1" }, { documentUrl := "u2" },
                  { documentUrl := "u3" }] }


theorem applyTransitionError_retry_le (f : Filing) (e : Option String) :
    f.retryCount ≤ (applyTransitionError f e).retryCount := by
  cases e <;> simp [applyTransitionError]

theorem setStatusField_retry (f : Filing) (step status : String) :
    (setStatusField f step status).retryCount = f.retryCount := by
  unfold setStatusField
  split <;> try rfl
  split <;> try rfl
  split <;> try rfl
  split <;> try rfl
  split <;> rfl

theorem setStatusField_filingId (f : Filing) (step status : String) :
    (setStatusField f step status).filingId = f.filingId := by
  unfold setStatusField
  split <;> try rfl
  split <;> try rfl
  split <;> try rfl
  split <;> try rfl
  split <;> rfl

theorem applyTransitionError_filingId (f : Filing) (e : Option String) :
    (applyTransitionError f e).filingId = f.filingId := by
  cases e <;> simp [applyTransitionError]

theorem updateFilingById_getElem? (db : List Filing) (fid : String)
    (g : Filing → Filing) (i : Nat) (f : Filing)
    (h : db[i]? = some f) :
    (updateFilingById db fid g)[i]? = some f ∨
    (updateFilingById db fid g)[i]? = some (g f) := by
  induction db generalizing i with
  | nil => simp at h
  | cons a t ih =>
      cases i with
      | zero =>
          simp at h
          subst h
          by_cases ha : a.filingId = fid <;> simp [updateFilingById, ha]
      | succ n =>
          simp at h
          by_cases ha : a.filingId = fid
          · simp [updateFilingById, ha, h]
          · simpa [updateFilingById, ha] using ih n h

theorem applyStoreOp_retry_mono (db : List Filing) (op : StoreOp) (i : Nat)
    (f : Filing) (h : db[i]? = some f) :
    ∃ f', (applyStoreOp db op)[i]? = some f' ∧
      f.retryCount ≤ f'.retryCount := by
  cases op with
  | createOp fid attrs =>
      refine ⟨f, ?_, le_refl _⟩
      unfold applyStoreOp createFiling
      by_cases hd : (getFilingById db fid).isSome
      · simp [hd, h]
      · simp only [hd, Bool.false_eq_true, if_neg, ite_false]
        have hi : i < db.length := (List.getElem?_eq_some_iff.mp h).1
        rw [List.getElem?_append_left hi]
        exact h
  | markStep fid step status error =>
      unfold applyStoreOp markStepComplete
      by_cases hv : step ∈ VALID_STEPS
      · simp only [hv, if_pos]
        cases hfind : getFilingById db fid with
        | none => exact ⟨f, h, le_refl _⟩
        | some f0 =>
            simp only
            have := updateFilingById_getElem? db fid
              (fun f => applyTransitionError (setStatusField f step status) error) i f h
            rcases this with h' | h'
            · exact ⟨f, h', le_refl _⟩
            · refine ⟨_, h', ?_⟩
              calc f.retryCount
                  = (setStatusField f step status).retryCount :=
                    (setStatusField_retry f step status).symm
                _ ≤ _ := applyTransitionError_retry_le _ _
      · simp only [hv, if_neg, ite_false]
        exact ⟨f, h, le_refl _⟩

theorem runStoreOps_retry_mono (ops : List StoreOp) (db : List Filing)
    (i : Nat) (f : Filing) (h : db[i]? = some f) :
    ∃ f', (runStoreOps db ops)[i]? = some f' ∧
      f.retryCount ≤ f'.retryCount := by
  induction ops generalizing db f with
  | nil => exact ⟨f, h, le_refl _⟩
  | cons op rest ih =>
      obtain ⟨f1, h1, hle1⟩ := applyStoreOp_retry_mono db op i f h
      obtain ⟨f2, h2, hle2⟩ := ih (applyStoreOp db op) f1 h1
      exact ⟨f2, h2, le_trans hle1 hle2⟩

theorem listLengthGo_eq (l : List Char) :
    ∀ acc : Nat, listLengthGo acc l = acc + l.length := by
  induction l with
  | nil => intro acc; simp [listLengthGo]
  | cons x xs ih =>
      intro acc
      match acc with
      | 0 => simp [listLengthGo, ih]; omega
      | m + 1 => simp [listLengthGo, ih]; omega

theorem listLength_eq (l : List Char) : listLength l = l.length := by
  simp [listLength, listLengthGo_eq]

theorem getFilingById_updateFilingById (db : List Filing) (fid : String)
    (g : Filing → Filing) (hg : ∀ x, (g x).filingId = x.filingId)
    (f : Filing) (h : getFilingById db fid = some f) :
    getFilingById (updateFilingById db fid g) fid = some (g f) := by
  induction db with
  | nil => simp [getFilingById] at h
  | cons a t ih =>
      by_cases ha : a.filingId = fid
      · simp [getFilingById, ha] at h
        subst h
        simp [updateFilingById, getFilingById, ha, hg]
      · simp [getFilingById, ha] at h
        simpa [updateFilingById, getFilingById, ha] using ih h

@[simp] theorem applyTransitionError_statusScraped (f : Filing) (e : Option String) :
    (applyTransitionError f e).statusScraped = f.statusScraped := by
  cases e <;> rfl

@[simp] theorem applyTransitionError_statusDownloaded (f : Filing) (e : Option String) :
    (applyTransitionError f e).statusDownloaded = f.statusDownloaded := by
  cases e <;> rfl

@[simp] theorem applyTransitionError_statusExtracted (f : Filing) (e : Option String) :
    (applyTransitionError f e).statusExtracted = f.statusExtracted := by
  cases e <;> rfl

@[simp] theorem applyTransitionError_statusAnalyzed (f : Filing) (e : Option String) :
    (applyTransitionError f e).statusAnalyzed = f.statusAnalyzed := by
  cases e <;> rfl

@[simp] theorem applyTransitionError_statusEmailed (f : Filing) (e : Option String) :
    (applyTransitionError f e).statusEmailed = f.statusEmailed := by
  cases e <;> rfl

@[simp] theorem applyTransitionError_documents (f : Filing) (e : Option String) :
    (applyTransitionError f e).documents = f.documents := by
  cases e <;> rfl

@[simp] theorem applyTransitionError_analysisJson (f : Filing) (e : Option String) :
    (applyTransitionError f e).analysisJson = f.analysisJson := by
  cases e <;> rfl

@[simp] theorem setStatusField_documents (f : Filing) (step status : String) :
    (setStatusField f step status).documents = f.documents := by
  unfold setStatusField
  split <;> try rfl
  split <;> try rfl
  split <;> try rfl
  split <;> try rfl
  split <;> rfl

@[simp] theorem setStatusField_analysisJson (f : Filing) (step status : String) :
    (setStatusField f step status).analysisJson = f.analysisJson := by
  unfold setStatusField
  split <;> try rfl
  split <;> try rfl
  split <;> try rfl
  split <;> try rfl
  split <;> rfl

@[simp] theorem setStatusField_errorMessage (f : Filing) (step status : String) :
    (setStatusField f step status).errorMessage = f.errorMessage := by
  unfold setStatusField
  split <;> try rfl
  split <;> try rfl
  split <;> try rfl
  split <;> try rfl
  split <;> rfl

theorem downloadDocsLoop_fail (fetch : Nat → DownloadResult) (filingDir : String) :
    ∀ (rest processed : List Document) (idx pdfCount totalBytes : Nat) (dir : Bool),
      (∃ j, j < rest.length ∧ (fetch (idx + j)).success = false) →
      ((downloadDocsLoop fetch filingDir idx rest processed pdfCount totalBytes dir).success
          = false ∧
        (downloadDocsLoop fetch filingDir idx rest processed pdfCount totalBytes dir).dirExists
          = false ∧
        ∀ d ∈ (downloadDocsLoop fetch filingDir idx rest processed pdfCount totalBytes
            dir).docs, d.downloadStatus = "failed" ∧ d.localPath = none) := by
  intro rest
  induction rest with
  | nil =>
      intro processed idx pdfCount totalBytes dir h
      obtain ⟨j, hj, _⟩ := h
      simp at hj
  | cons d rest ih =>
      intro processed idx pdfCount totalBytes dir h
      by_cases hr : (fetch idx).success = true
      · have h' : ∃ j, j < rest.length ∧ (fetch (idx + 1 + j)).success = false := by
          obtain ⟨j, hj, hf⟩ := h
          match j with
          | 0 => simp only [Nat.add_zero] at hf; simp [hf] at hr
          | j' + 1 =>
              refine ⟨j', ?_, ?_⟩
              · simpa using hj
              · have harith : idx + 1 + j' = idx + (j' + 1) := by omega
                rw [harith]; exact hf
        have := ih (({ d with
            localPath := some (filingDir ++ "/doc_" ++ toString idx ++ ".pdf"),
            fileSizeBytes := some (fetch idx).bytesDownloaded,
            downloadStatus := "success" }) :: processed)
          (idx + 1) (pdfCount + 1) (totalBytes + (fetch idx).bytesDownloaded) true h'
        simpa [downloadDocsLoop, hr] using this
      · have hr' : (fetch idx).success = false := by
          cases hfe : (fetch idx).success
          · rfl
          · exact absurd hfe hr
        have heq : downloadDocsLoop fetch filingDir idx (d :: rest) processed
            pdfCount totalBytes dir =
            ⟨false, some ("document " ++ toString idx ++ " failed"), 0, 0,
              (processed.reverse ++ d :: rest).map resetDocAfterFailure, false⟩ := by
          simp [downloadDocsLoop, hr']
        rw [heq]
        refine ⟨rfl, rfl, ?_⟩
        intro x hx
        simp only [List.mem_map] at hx
        obtain ⟨y, _, hy⟩ := hx
        subst hy
        simp [resetDocAfterFailure]

/-- Claim C1: when any document fetch of a filing fails, the per-filing
download operation ends with every document reset to
`download_status = "failed"` and `local_path = None`, the filing's
directory removed, and the filing's downloaded stage transitioned to
`"failed"`. -/
theorem download_all_or_nothing (fetch : Nat → DownloadResult)
    (filingDir : String) (filing : Filing) (dirExists : Bool)
    (h : ∃ i, i < filing.documents.length ∧ (fetch (i + 1)).success = false) :
    (processFilingDownload fetch filingDir filing dirExists).1.statusDownloaded
        = "failed" ∧
    (processFilingDownload fetch filingDir filing dirExists).2.1 = false ∧
    ∀ d ∈ (processFilingDownload fetch filingDir filing dirExists).1.documents,
      d.downloadStatus = "failed" ∧ d.downloadStatus ≠ "success" ∧
        d.localPath = none := by
  obtain ⟨i, hi, hf⟩ := h
  match hdocs : filing.documents with
  | [] => rw [hdocs] at hi; simp at hi
  | d0 :: docs0 =>
      have hex : ∃ j, j < (d0 :: docs0).length ∧ (fetch (1 + j)).success = false := by
        refine ⟨i, by rw [hdocs] at hi; exact hi, ?_⟩
        rw [Nat.add_comm]; exact hf
      have hloop := downloadDocsLoop_fail fetch filingDir (d0 :: docs0) [] 1 0 0 dirExists hex
      have hdf : downloadFiling fetch filingDir filing.documents dirExists =
          downloadDocsLoop fetch filingDir 1 (d0 :: docs0) [] 0 0 dirExists := by
        rw [hdocs]; rfl
      unfold processFilingDownload
      rw [hdf]
      rcases hloop with ⟨hsucc, hdir, hdocsall⟩
      simp only [hsucc, Bool.false_eq_true, if_false, ite_false]
      refine ⟨?_, ?_, ?_⟩
      · simp [setStatusField]
      · exact hdir
      · intro d hd
        simp only [applyTransitionError_documents, setStatusField_documents] at hd
        obtain ⟨h1, h2⟩ := hdocsall d hd
        exact ⟨h1, by rw [h1]; decide, h2⟩

theorem download_all_or_nothing_witness :
    (∃ i, i < threeDocFiling.documents.length ∧
      (secondFetchFails (i + 1)).success = false) ∧
    ((processFilingDownload secondFetchFails "dir" threeDocFiling false).1.statusDownloaded
        = "failed" ∧
      (processFilingDownload secondFetchFails "dir" threeDocFiling false).2.1 = false ∧
      ∀ d ∈ (processFilingDownload secondFetchFails "dir" threeDocFiling
          false).1.documents,
        d.downloadStatus = "failed" ∧ d.downloadStatus ≠ "success" ∧
          d.localPath = none) :=
  ⟨⟨1, by decide, by decide⟩,
   download_all_or_nothing secondFetchFails "dir" threeDocFiling false
     ⟨1, by decide, by decide⟩⟩

theorem extractDocStep_not_downloaded (extract : Nat → ExtractionResult)
    (sc : Nat → Bool) (idx : Nat) (d : Document)
    (hdl : d.downloadStatus ≠ "success") :
    extractDocStep extract sc idx d = Except.ok ⟨d, 0, 0, 0, none⟩ := by
  simp [extractDocStep, hdl]

theorem extractDocStep_no_path (extract : Nat → ExtractionResult)
    (sc : Nat → Bool) (idx : Nat) (d : Document)
    (hdl : d.downloadStatus = "success") (hp : d.localPath = none) :
    extractDocStep extract sc idx d =
      Except.error "TypeError: expected str, got None" := by
  simp [extractDocStep, hdl, hp]

theorem extractDocStep_sidecar (extract : Nat → ExtractionResult)
    (sc : Nat → Bool) (idx : Nat) (d : Document) (p : String)
    (hdl : d.downloadStatus = "success") (hp : d.localPath = some p)
    (hsc : sc idx = true) :
    extractDocStep extract sc idx d = Except.ok ⟨d, 0, 1, 0, none⟩ := by
  simp [extractDocStep, hdl, hp, hsc]

theorem extractDocStep_extract_ok (extract : Nat → ExtractionResult)
    (sc : Nat → Bool) (idx : Nat) (d : Document) (p : String)
    (hdl : d.downloadStatus = "success") (hp : d.localPath = some p)
    (hsc : sc idx = false) (hex : (extract idx).success = true) :
    extractDocStep extract sc idx d = Except.ok
      ⟨docAfterExtractOk d (extract idx), 1, 1, 0, none⟩ := by
  simp [extractDocStep, hdl, hp, hsc, hex]

theorem extractDocStep_extract_fail (extract : Nat → ExtractionResult)
    (sc : Nat → Bool) (idx : Nat) (d : Document) (p : String)
    (hdl : d.downloadStatus = "success") (hp : d.localPath = some p)
    (hsc : sc idx = false) (hex : (extract idx).success = false) :
    extractDocStep extract sc idx d = Except.ok
      ⟨docAfterExtractFail d (extract idx), 1, 0, 1,
        some ("Document " ++ toString idx ++ " failed")⟩ := by
  simp [extractDocStep, hdl, hp, hsc, hex]

theorem extractDocStep_ok_succ_iff (extract : Nat → ExtractionResult)
    (sc : Nat → Bool) (idx : Nat) (d : Document) (s : ExtractStepResult)
    (h : extractDocStep extract sc idx d = Except.ok s) :
    (0 < s.succInc ↔ d.downloadStatus = "success" ∧
      (sc idx = true ∨ (extract idx).success = true)) := by
  by_cases hdl : d.downloadStatus = "success"
  · cases hp : d.localPath with
    | none => rw [extractDocStep_no_path extract sc idx d hdl hp] at h; cases h
    | some p =>
        cases hsc : sc idx with
        | true =>
            rw [extractDocStep_sidecar extract sc idx d p hdl hp hsc] at h
            injection h with hs
            subst hs
            simp [hdl]
        | false =>
            cases hex : (extract idx).success with
            | true =>
                rw [extractDocStep_extract_ok extract sc idx d p hdl hp hsc hex] at h
                injection h with hs
                subst hs
                simp [hdl, hex]
            | false =>
                rw [extractDocStep_extract_fail extract sc idx d p hdl hp hsc hex] at h
                injection h with hs
                subst hs
                simp [hdl, hsc, hex]
  · rw [extractDocStep_not_downloaded extract sc idx d hdl] at h
    injection h with hs
    subst hs
    simp [hdl]

theorem extractDocsGo_eq_spec (extract : Nat → ExtractionResult)
    (sc : Nat → Bool) :
    ∀ (docs : List Document) (idx : Nat) (acc : List ExtractStepResult),
      extractDocsGo extract sc idx docs acc =
        (extractStepsSpec extract sc idx docs).map (fun l => acc.reverse ++ l) := by
  intro docs
  induction docs with
  | nil => intro idx acc; simp [extractDocsGo, extractStepsSpec, Except.map]
  | cons d rest ih =>
      intro idx acc
      cases hstep : extractDocStep extract sc idx d with
      | error e => simp [extractDocsGo, extractStepsSpec, hstep, Except.map]
      | ok s =>
          simp only [extractDocsGo, extractStepsSpec, hstep]
          rw [ih (idx + 1) (s :: acc)]
          cases hspec : extractStepsSpec extract sc (idx + 1) rest with
          | error e => simp [Except.map]
          | ok l => simp [Except.map]

theorem extractStepsSpec_ok_length (extract : Nat → ExtractionResult)
    (sc : Nat → Bool) :
    ∀ (docs : List Document) (idx : Nat) (steps : List ExtractStepResult),
      extractStepsSpec extract sc idx docs = Except.ok steps →
      steps.length = docs.length := by
  intro docs
  induction docs with
  | nil =>
      intro idx steps h
      simp [extractStepsSpec] at h
      simp [← h]
  | cons d rest ih =>
      intro idx steps h
      cases hstep : extractDocStep extract sc idx d with
      | error e => simp [extractStepsSpec, hstep] at h
      | ok s =>
          cases hspec : extractStepsSpec extract sc (idx + 1) rest with
          | error e => simp [extractStepsSpec, hstep, hspec] at h
          | ok l =>
              simp only [extractStepsSpec, hstep, hspec, Except.ok.injEq] at h
              subst h
              simp [ih (idx + 1) l hspec]

theorem extractStepsSpec_ok_getElem? (extract : Nat → ExtractionResult)
    (sc : Nat → Bool) :
    ∀ (docs : List Document) (idx : Nat) (steps : List ExtractStepResult),
      extractStepsSpec extract sc idx docs = Except.ok steps →
      ∀ (i : Nat) (d : Document), docs[i]? = some d →
        ∃ s, extractDocStep extract sc (idx + i) d = Except.ok s ∧
          steps[i]? = some s := by
  intro docs
  induction docs with
  | nil => intro idx steps _ i d hd; simp at hd
  | cons d0 rest ih =>
      intro idx steps h i d hd
      cases hstep : extractDocStep extract sc idx d0 with
      | error e => simp [extractStepsSpec, hstep] at h
      | ok s0 =>
          cases hspec : extractStepsSpec extract sc (idx + 1) rest with
          | error e => simp [extractStepsSpec, hstep, hspec] at h
          | ok l =>
              simp only [extractStepsSpec, hstep, hspec, Except.ok.injEq] at h
              subst h
              match i with
              | 0 =>
                  simp at hd
                  subst hd
                  exact ⟨s0, by simpa using hstep, by simp⟩
              | n + 1 =>
                  simp at hd
                  obtain ⟨s, hs1, hs2⟩ := ih (idx + 1) l hspec n d hd
                  refine ⟨s, ?_, by simpa using hs2⟩
                  have harith : idx + 1 + n = idx + (n + 1) := by omega
                  rw [← harith]; exact hs1

theorem extractStepsSpec_ok_of_safe (extract : Nat → ExtractionResult)
    (sc : Nat → Bool) :
    ∀ (docs : List Document) (idx : Nat),
      (∀ d ∈ docs, d.downloadStatus = "success" → d.localPath.isSome) →
      ∃ steps, extractStepsSpec extract sc idx docs = Except.ok steps := by
  intro docs
  induction docs with
  | nil => intro idx _; exact ⟨[], by simp [extractStepsSpec]⟩
  | cons d rest ih =>
      intro idx hsafe
      obtain ⟨l, hl⟩ := ih (idx + 1) (fun x hx => hsafe x (by simp [hx]))
      have hstep : ∃ s, extractDocStep extract sc idx d = Except.ok s := by
        by_cases hdl : d.downloadStatus = "success"
        · have hps : d.localPath.isSome := hsafe d (by simp) hdl
          obtain ⟨p, hp⟩ := Option.isSome_iff_exists.mp hps
          cases hsc : sc idx with
          | true => exact ⟨_, extractDocStep_sidecar extract sc idx d p hdl hp hsc⟩
          | false =>
              cases hex : (extract idx).success with
              | true =>
                  exact ⟨_, extractDocStep_extract_ok extract sc idx d p hdl hp hsc hex⟩
              | false =>
                  exact ⟨_, extractDocStep_extract_fail extract sc idx d p hdl hp hsc hex⟩
        · exact ⟨_, extractDocStep_not_downloaded extract sc idx d hdl⟩
      obtain ⟨s, hs⟩ := hstep
      refine ⟨s :: l, ?_⟩
      simp only [extractStepsSpec]
      rw [hs, hl]

theorem extractFilingDocuments_ok_of_cons (extract : Nat → ExtractionResult)
    (sc : Nat → Bool) (d0 : Document) (rest : List Document)
    (steps : List ExtractStepResult)
    (hspec : extractStepsSpec extract sc 1 (d0 :: rest) = Except.ok steps) :
    extractFilingDocuments extract sc (d0 :: rest) = Except.ok
      ⟨decide (0 < (steps.map (fun s => s.succInc)).sum),
        joinErrorMessages (steps.filterMap (fun s => s.errMsg)),
        (steps.map (fun s => s.succInc)).sum,
        (steps.map (fun s => s.failInc)).sum,
        steps.map (fun s => s.newDoc), steps⟩ := by
  have hgo := extractDocsGo_eq_spec extract sc (d0 :: rest) 1 []
  rw [hspec] at hgo
  simp only [Except.map, List.reverse_nil, List.nil_append] at hgo
  simp only [extractFilingDocuments, hgo]

theorem extractFilingDocuments_success_iff (extract : Nat → ExtractionResult)
    (sc : Nat → Bool) (d0 : Document) (rest : List Document)
    (o : ExtractFilingOutcome)
    (hok : extractFilingDocuments extract sc (d0 :: rest) = Except.ok o) :
    (o.hasAnySuccess = true ↔
      ∃ (i : Nat) (d : Document), (d0 :: rest)[i]? = some d ∧
        d.downloadStatus = "success" ∧
        (sc (i + 1) = true ∨ (extract (i + 1)).success = true)) := by
  cases hspec : extractStepsSpec extract sc 1 (d0 :: rest) with
  | error e =>
      have hgo := extractDocsGo_eq_spec extract sc (d0 :: rest) 1 []
      rw [hspec] at hgo
      simp only [Except.map] at hgo
      simp [extractFilingDocuments, hgo] at hok
  | ok steps =>
      rw [extractFilingDocuments_ok_of_cons extract sc d0 rest steps hspec] at hok
      injection hok with hok'
      subst hok'
      simp only [decide_eq_true_iff]
      constructor
      · intro hpos
        have hne : ¬ ∀ x ∈ steps.map (fun s => s.succInc), x = 0 := by
          intro hall
          rw [List.sum_eq_zero_iff.mpr hall] at hpos
          exact Nat.lt_irrefl 0 hpos
        push_neg at hne
        obtain ⟨x, hxmem, hxne⟩ := hne
        simp only [List.mem_map] at hxmem
        obtain ⟨s, hsmem, rfl⟩ := hxmem
        obtain ⟨i, hi⟩ := List.mem_iff_getElem?.mp hsmem
        have hlen := extractStepsSpec_ok_length extract sc (d0 :: rest) 1 steps hspec
        have hilt : i < steps.length := (List.getElem?_eq_some_iff.mp hi).1
        have hdlt : i < (d0 :: rest).length := by omega
        have hdoc : (d0 :: rest)[i]? = some (d0 :: rest)[i] :=
          List.getElem?_eq_getElem hdlt
        obtain ⟨s', hs'1, hs'2⟩ :=
          extractStepsSpec_ok_getElem? extract sc (d0 :: rest) 1 steps hspec i _ hdoc
        have hss : s' = s := by
          rw [hi] at hs'2
          exact (Option.some.inj hs'2).symm
        rw [hss] at hs'1
        have hcond := (extractDocStep_ok_succ_iff extract sc (1 + i) _ s hs'1).mp
          (Nat.pos_of_ne_zero hxne)
        refine ⟨i, (d0 :: rest)[i], hdoc, hcond.1, ?_⟩
        rw [Nat.add_comm 1 i] at hcond
        exact hcond.2
      · rintro ⟨i, d, hd, hdl, hcond⟩
        obtain ⟨s, hs1, hs2⟩ :=
          extractStepsSpec_ok_getElem? extract sc (d0 :: rest) 1 steps hspec i d hd
        have hpos : 0 < s.succInc :=
          (extractDocStep_ok_succ_iff extract sc (1 + i) d s hs1).mpr
            ⟨hdl, by rw [Nat.add_comm 1 i]; exact hcond⟩
        have hmem : s ∈ steps := by
          rw [List.mem_iff_getElem?]; exact ⟨i, hs2⟩
        have hmm : s.succInc ∈ steps.map (fun s => s.succInc) :=
          List.mem_map_of_mem _ hmem
        have hle := List.single_le_sum (fun y _ => Nat.zero_le y) _ hmm
        omega

/-- Claim C2 counterexample: a filing whose documents exist but none of
which was successfully downloaded is eligible for the extraction stage,
yet the stage marks it `"failed"` (with a retry increment), not
`"success"` as the claim states. -/
theorem extraction_zero_eligible_marked_failed :
    undownloadedDocFiling ∈ extractFilingsQuery [undownloadedDocFiling] ∧
    (processFilingExtraction alwaysFailExtract noSidecar
        undownloadedDocFiling).1.statusExtracted = "failed" ∧
    (processFilingExtraction alwaysFailExtract noSidecar
        undownloadedDocFiling).2.failedInc = 1 ∧
    (processFilingExtraction alwaysFailExtract noSidecar
        undownloadedDocFiling).1.retryCount =
      undownloadedDocFiling.retryCount + 1 := by
  decide

/-- Claim C2 (amended): provided every successfully-downloaded document
has a local path (the invariant the download stage maintains), the
extraction stage marks a filing `"success"` exactly when the filing has
no documents at all, or some successfully-downloaded document either
already has a non-empty sidecar or extracts successfully; in
particular a filing with documents but no successfully-downloaded ones
is marked `"failed"`. -/
theorem extraction_success_iff_some_doc (extract : Nat → ExtractionResult)
    (sc : Nat → Bool) (filing : Filing)
    (hsafe : ∀ d ∈ filing.documents,
      d.downloadStatus = "success" → d.localPath.isSome) :
    ((processFilingExtraction extract sc filing).1.statusExtracted = "success" ↔
      (filing.documents = [] ∨
        ∃ (i : Nat) (d : Document), filing.documents[i]? = some d ∧
          d.downloadStatus = "success" ∧
          (sc (i + 1) = true ∨ (extract (i + 1)).success = true))) := by
  cases hdocs : filing.documents with
  | nil =>
      have hout : extractFilingDocuments extract sc filing.documents =
          Except.ok ⟨true, none, 0, 0, [], []⟩ := by
        rw [hdocs]; rfl
      unfold processFilingExtraction
      rw [hout]
      simp [setStatusField]
  | cons d0 rest =>
      rw [hdocs] at hsafe
      obtain ⟨steps, hspec⟩ :=
        extractStepsSpec_ok_of_safe extract sc (d0 :: rest) 1 hsafe
      have hok := extractFilingDocuments_ok_of_cons extract sc d0 rest steps hspec
      have hiff := extractFilingDocuments_success_iff extract sc d0 rest _ hok
      unfold processFilingExtraction
      rw [hdocs, hok]
      by_cases hsucc :
          (decide (0 < (steps.map (fun s => s.succInc)).sum) : Bool) = true
      · simp only [hsucc, if_true, ite_true]
        constructor
        · intro _
          right
          exact hiff.mp hsucc
        · intro _
          simp [setStatusField]
      · simp only [hsucc, Bool.false_eq_true, if_false, ite_false]
        simp only [applyTransitionError_statusExtracted]
        constructor
        · intro hcontra
          simp [setStatusField] at hcontra
        · intro hor
          rcases hor with hnil | hex
          · exact (List.cons_ne_nil d0 rest hnil).elim
          · exact absurd (hiff.mpr hex) hsucc

theorem extraction_success_iff_some_doc_witness :
    (∀ d ∈ sidecarFiling.documents,
      d.downloadStatus = "success" → d.localPath.isSome) ∧
    (processFilingExtraction alwaysOkExtract noSidecar
        sidecarFiling).1.statusExtracted = "success" :=
  ⟨by decide,
   (extraction_success_iff_some_doc alwaysOkExtract noSidecar sidecarFiling
      (by decide)).mpr
     (Or.inr ⟨0, { documentUrl := "u1", downloadStatus := "success",
                   localPath := some "p1" }, by decide, by decide,
       Or.inr (by decide)⟩)⟩

/-- Claim C9: in an extraction run, a document that was successfully
downloaded and whose markdown sidecar already exists non-empty
contributes a step with zero tier-cascade invocations, an unchanged
row, and a success count of one — so the filing registers a success for
it without `extract_document` being called (idempotent re-run). -/
theorem extraction_idempotent_sidecar (extract : Nat → ExtractionResult)
    (sc : Nat → Bool) (docs : List Document) (o : ExtractFilingOutcome)
    (i : Nat) (doc : Document)
    (hok : extractFilingDocuments extract sc docs = Except.ok o)
    (hget : docs[i]? = some doc)
    (hdl : doc.downloadStatus = "success")
    (hlp : doc.localPath.isSome)
    (hsc : sc (i + 1) = true) :
    o.steps[i]? = some ⟨doc, 0, 1, 0, none⟩ ∧ 0 < o.successCount ∧
      o.hasAnySuccess = true := by
  cases hdocs : docs with
  | nil => rw [hdocs] at hget; simp at hget
  | cons d0 rest =>
      subst hdocs
      cases hspec : extractStepsSpec extract sc 1 (d0 :: rest) with
      | error e =>
          have hgo := extractDocsGo_eq_spec extract sc (d0 :: rest) 1 []
          rw [hspec] at hgo
          simp only [Except.map] at hgo
          simp [extractFilingDocuments, hgo] at hok
      | ok steps =>
          rw [extractFilingDocuments_ok_of_cons extract sc d0 rest steps hspec] at hok
          injection hok with hok'
          subst hok'
          obtain ⟨s, hs1, hs2⟩ :=
            extractStepsSpec_ok_getElem? extract sc (d0 :: rest) 1 steps hspec i doc hget
          obtain ⟨p, hp⟩ := Option.isSome_iff_exists.mp hlp
          have hsc' : sc (1 + i) = true := by rw [Nat.add_comm 1 i]; exact hsc
          rw [extractDocStep_sidecar extract sc (1 + i) doc p hdl hp hsc'] at hs1
          have hss : s = ⟨doc, 0, 1, 0, none⟩ := (Except.ok.inj hs1).symm
          have hmem : s ∈ steps := by
            rw [List.mem_iff_getElem?]; exact ⟨i, hs2⟩
          have hmm : s.succInc ∈ steps.map (fun s => s.succInc) :=
            List.mem_map_of_mem _ hmem
          have hle := List.single_le_sum (fun y _ => Nat.zero_le y) _ hmm
          have hone : (1 : Nat) ≤ (steps.map (fun s => s.succInc)).sum := by
            rw [hss] at hle
            exact hle
          have hpos : 0 < (steps.map (fun s => s.succInc)).sum := by omega
          rw [hss] at hs2
          refine ⟨hs2, hpos, ?_⟩
          simp only [decide_eq_true_iff]
          exact hpos

theorem extraction_idempotent_sidecar_witness :
    extractFilingDocuments alwaysFailExtract allSidecars
        sidecarFiling.documents = Except.ok sidecarRunOutcome ∧
    sidecarFiling.documents[0]? = some sidecarDocOne ∧
    sidecarDocOne.downloadStatus = "success" ∧
    sidecarDocOne.localPath.isSome ∧ allSidecars (0 + 1) = true ∧
    (sidecarRunOutcome.steps[0]? = some ⟨sidecarDocOne, 0, 1, 0, none⟩ ∧
      0 < sidecarRunOutcome.successCount ∧
      sidecarRunOutcome.hasAnySuccess = true) :=
  ⟨by rfl, by decide, by decide, by decide, by decide,
   extraction_idempotent_sidecar alwaysFailExtract allSidecars
     sidecarFiling.documents sidecarRunOutcome 0 sidecarDocOne
     (by rfl) (by decide) (by decide) (by decide) (by decide)⟩

/-- Claim C3 counterexample: a filing with zero documents processed by
the download stage is eligible for the download query, gets marked
`"success"`, and is counted under `filings_succeeded`, while
`filings_skipped` stays zero — not under `skipped` as claimed. -/
theorem vacuous_download_counted_succeeded :
    zeroDocPendingFiling ∈ downloadFilingsQuery {} [zeroDocPendingFiling] ∧
    (processFilingDownload alwaysOkFetch "dir" zeroDocPendingFiling
        false).1.statusDownloaded = "success" ∧
    (processFilingDownload alwaysOkFetch "dir" zeroDocPendingFiling
        false).2.2.succeededInc = 1 ∧
    (processFilingDownload alwaysOkFetch "dir" zeroDocPendingFiling
        false).2.2.skippedInc = 0 := by
  decide

/-- Claim C3 (amended): a zero-document filing is marked `"success"` by
the download and extraction stages but counted under `succeeded`, not
`skipped`; an extraction-stage filing with documents but no
successfully-downloaded ones is marked `"failed"` and counted under
`failed`; only the analysis stage counts its zero-eligible-document
filings under `skipped` while marking them `"success"`. -/
theorem vacuous_success_counters :
    (∀ (fetch : Nat → DownloadResult) (fd : String) (filing : Filing)
        (dir : Bool), filing.documents = [] →
        ((processFilingDownload fetch fd filing dir).1.statusDownloaded
            = "success" ∧
          (processFilingDownload fetch fd filing dir).2.2.succeededInc = 1 ∧
          (processFilingDownload fetch fd filing dir).2.2.skippedInc = 0)) ∧
    (∀ (extract : Nat → ExtractionResult) (sc : Nat → Bool) (filing : Filing),
        filing.documents = [] →
        ((processFilingExtraction extract sc filing).1.statusExtracted
            = "success" ∧
          (processFilingExtraction extract sc filing).2.succeededInc = 1 ∧
          (processFilingExtraction extract sc filing).2.skippedInc = 0)) ∧
    (∀ (extract : Nat → ExtractionResult) (sc : Nat → Bool) (filing : Filing),
        filing.documents ≠ [] →
        (∀ d ∈ filing.documents, d.downloadStatus ≠ "success") →
        ((processFilingExtraction extract sc filing).1.statusExtracted
            = "failed" ∧
          (processFilingExtraction extract sc filing).2.failedInc = 1)) ∧
    (∀ (svc : AnalysisResult) (fsOk : Bool) (filing : Filing),
        includedCount filing.documents = 0 →
        ((processFilingAnalysis svc fsOk true filing).1.statusAnalyzed
            = "success" ∧
          (processFilingAnalysis svc fsOk true filing).2.skippedInc = 1 ∧
          (processFilingAnalysis svc fsOk true filing).2.succeededInc = 0 ∧
          (processFilingAnalysis svc fsOk true filing).2.failedInc = 0)) := by
  refine ⟨?_, ?_, ?_, ?_⟩
  · intro fetch fd filing dir hdocs
    have hout : downloadFiling fetch fd filing.documents dir =
        ⟨true, none, 0, 0, [], dir⟩ := by
      rw [hdocs]; rfl
    unfold processFilingDownload
    rw [hout]
    simp [setStatusField]
  · intro extract sc filing hdocs
    have hout : extractFilingDocuments extract sc filing.documents =
        Except.ok ⟨true, none, 0, 0, [], []⟩ := by
      rw [hdocs]; rfl
    unfold processFilingExtraction
    rw [hout]
    simp [setStatusField]
  · intro extract sc filing hne hnd
    cases hdocs : filing.documents with
    | nil => exact absurd hdocs hne
    | cons d0 rest =>
        have hsafe : ∀ d ∈ d0 :: rest, d.downloadStatus = "success" →
            d.localPath.isSome := by
          intro d hd hdl
          rw [hdocs] at hnd
          exact absurd hdl (hnd d hd)
        obtain ⟨steps, hspec⟩ :=
          extractStepsSpec_ok_of_safe extract sc (d0 :: rest) 1 hsafe
        have hok := extractFilingDocuments_ok_of_cons extract sc d0 rest steps hspec
        have hiff := extractFilingDocuments_success_iff extract sc d0 rest _ hok
        have hB : (decide (0 < (steps.map (fun s => s.succInc)).sum) : Bool)
            = false := by
          cases hB : (decide (0 < (steps.map (fun s => s.succInc)).sum) : Bool) with
          | false => rfl
          | true =>
              obtain ⟨i, d, hd, hdl, _⟩ := hiff.mp hB
              have hdm : d ∈ d0 :: rest := by
                rw [List.mem_iff_getElem?]; exact ⟨i, hd⟩
              rw [hdocs] at hnd
              exact absurd hdl (hnd d hdm)
        unfold processFilingExtraction
        rw [hdocs, hok]
        simp [hB, setStatusField]
  · intro svc fsOk filing hinc
    have hr : analyzeSingleFiling svc fsOk filing =
        ⟨true, none, true, filing, false, false⟩ := by
      unfold analyzeSingleFiling
      rw [hinc]
      simp
    unfold processFilingAnalysis
    rw [hr]
    simp [setStatusField]

theorem vacuous_success_counters_witness :
    (zeroDocPendingFiling.documents = [] ∧
      (processFilingDownload alwaysOkFetch "d" zeroDocPendingFiling
          false).2.2.succeededInc = 1) ∧
    (processFilingExtraction alwaysFailExtract noSidecar
        zeroDocPendingFiling).2.succeededInc = 1 ∧
    (undownloadedDocFiling.documents ≠ [] ∧
      (∀ d ∈ undownloadedDocFiling.documents, d.downloadStatus ≠ "success") ∧
      (processFilingExtraction alwaysFailExtract noSidecar
          undownloadedDocFiling).2.failedInc = 1) ∧
    (includedCount zeroDocPendingFiling.documents = 0 ∧
      (processFilingAnalysis svcStructuredOk true true
          zeroDocPendingFiling).2.skippedInc = 1) :=
  ⟨⟨by decide, (vacuous_success_counters.1 alwaysOkFetch "d" zeroDocPendingFiling
      false (by decide)).2.1⟩,
   (vacuous_success_counters.2.1 alwaysFailExtract noSidecar zeroDocPendingFiling
      (by decide)).2.1,
   ⟨by decide, by decide,
    (vacuous_success_counters.2.2.1 alwaysFailExtract noSidecar
       undownloadedDocFiling (by decide) (by decide)).2⟩,
   ⟨by decide,
    (vacuous_success_counters.2.2.2 svcStructuredOk true zeroDocPendingFiling
       (by decide)).2.1⟩⟩

/-- Claim C8: on a structured success of the analysis primitive for a
filing with at least one contributing document, the sidecar write is
attempted exactly when a filing directory can be derived and a payload
exists, the validated result is stored in the filing's `analysis_json`
column, and — for every sidecar outcome — the filing is marked
`"analyzed" = "success"` when the database commit succeeds; the stage
fails the filing only when the database write fails. -/
theorem analysis_sidecar_best_effort (svc : AnalysisResult) (fsOk dbOk : Bool)
    (filing : Filing)
    (hsvc : svc.success = true)
    (hinc : 0 < includedCount filing.documents) :
    ((analyzeSingleFiling svc fsOk filing).sidecarAttempted =
        (filing.documents.any (fun d => d.localPath.isSome) &&
          svc.analysisJson.isSome)) ∧
    (dbOk = true →
      ((processFilingAnalysis svc fsOk dbOk filing).1.statusAnalyzed
          = "success" ∧
        (processFilingAnalysis svc fsOk dbOk filing).1.analysisJson =
          some (dumpsAnalysisJson svc.analysisJson) ∧
        (processFilingAnalysis svc fsOk dbOk filing).2.failedInc = 0)) ∧
    ((processFilingAnalysis svc fsOk dbOk filing).2.failedInc ≠ 0 →
      dbOk = false) := by
  have hne : includedCount filing.documents ≠ 0 := Nat.pos_iff_ne_zero.mp hinc
  have hr : analyzeSingleFiling svc fsOk filing =
      ⟨true, none, false,
        { filing with analysisJson := some (dumpsAnalysisJson svc.analysisJson) },
        filing.documents.any (fun d => d.localPath.isSome) &&
          svc.analysisJson.isSome,
        (filing.documents.any (fun d => d.localPath.isSome) &&
          svc.analysisJson.isSome) && fsOk⟩ := by
    unfold analyzeSingleFiling
    rw [if_neg hne, if_pos hsvc]
  refine ⟨by rw [hr], ?_, ?_⟩
  · intro hdb
    subst hdb
    unfold processFilingAnalysis
    rw [hr]
    simp [setStatusField]
  · intro hfail
    cases dbOk with
    | false => rfl
    | true =>
        exfalso
        unfold processFilingAnalysis at hfail
        rw [hr] at hfail
        simp at hfail

theorem analysis_sidecar_best_effort_witness :
    svcStructuredOk.success = true ∧
    0 < includedCount extractedFiling.documents ∧
    ((processFilingAnalysis svcStructuredOk false true
        extractedFiling).1.statusAnalyzed = "success" ∧
      (processFilingAnalysis svcStructuredOk false true
        extractedFiling).1.analysisJson =
        some (dumpsAnalysisJson svcStructuredOk.analysisJson) ∧
      (processFilingAnalysis svcStructuredOk false true
        extractedFiling).2.failedInc = 0) :=
  ⟨by decide, by decide,
   (analysis_sidecar_best_effort svcStructuredOk false true extractedFiling
      (by decide) (by decide)).2.1 rfl⟩

/-- Claim C4 counterexample: with a configured `max_retry_count` of 2, a
filing with `retry_count = 2` still appears in the result of the
eligibility query the extraction orchestrator runs, because
`extract_filings` hardcodes `max_retries = 3` instead of passing the
configured value. -/
theorem retry_ceiling_counterexample :
    retryTwoFiling ∈ extractFilingsQuery [retryTwoFiling] ∧
    ceilingTwoSettings.maxRetryCount ≤ retryTwoFiling.retryCount := by
  decide

/-- Claim C4 (amended): the download orchestrator's eligibility query
filters with the configured `max_retry_count`, while the extraction and
analysis orchestrators filter with a locally hardcoded ceiling of 3 —
each query never returns a filing whose `retry_count` reaches the
ceiling actually passed to that query. -/
theorem retry_ceiling_per_stage (ps : PipelineSettings) (db : List Filing)
    (f : Filing) :
    (f ∈ downloadFilingsQuery ps db → f.retryCount < ps.maxRetryCount) ∧
    (f ∈ extractFilingsQuery db → f.retryCount < 3) ∧
    (f ∈ analyzeFilingsQuery db → f.retryCount < 3) := by
  refine ⟨?_, ?_, ?_⟩ <;> intro hmem
  · simp only [downloadFilingsQuery, getFilingsForDownload, List.mem_filter,
      Bool.and_eq_true, decide_eq_true_eq] at hmem
    exact hmem.2.2
  · simp only [extractFilingsQuery, getFilingsForExtraction, List.mem_filter,
      Bool.and_eq_true, decide_eq_true_eq] at hmem
    exact hmem.2.2
  · simp only [analyzeFilingsQuery, getFilingsForAnalysis, List.mem_filter,
      Bool.and_eq_true, decide_eq_true_eq] at hmem
    exact hmem.2.2

theorem retry_ceiling_per_stage_witness :
    zeroDocPendingFiling ∈ downloadFilingsQuery {} [zeroDocPendingFiling] ∧
    zeroDocPendingFiling.retryCount < ({} : PipelineSettings).maxRetryCount :=
  ⟨by decide,
   (retry_ceiling_per_stage {} [zeroDocPendingFiling] zeroDocPendingFiling).1
     (by decide)⟩

/-- Claim C5 counterexample: with `min_chars_per_page = 50` and a
one-page document, an extraction with exactly `1 × 50` meaningful
characters fails the minimum-content check and the full standard gate,
because the floor `max(100, pageCount × minCharsPerPage)` dominates —
though the claim asserts the boundary pass for every `pageCount ≥ 1`. -/
theorem min_content_exact_product_fails :
    fiftyCharResult.charCount = 1 * defaultQualitySettings.minCharsPerPage ∧
    passesMinimumContent (1 * 50) 1 50 = false ∧
    passesQualityCheck fiftyCharResult 1 defaultQualitySettings = false := by
  decide

/-- Claim C5 (amended): the minimum-content check passes exactly when
the character count reaches `max(100, pageCount × minCharsPerPage)`;
consequently the exact-product boundary behaviour claimed (pass at
`pageCount × minCharsPerPage`, fail one character below) holds exactly
when `pageCount × minCharsPerPage ≥ 100`. -/
theorem min_content_threshold (charCount pageCount m : Nat) :
    (passesMinimumContent charCount pageCount m = true ↔
      max 100 (pageCount * m) ≤ charCount) ∧
    (1 ≤ pageCount → 100 ≤ pageCount * m →
      passesMinimumContent (pageCount * m) pageCount m = true ∧
      passesMinimumContent (pageCount * m - 1) pageCount m = false) := by
  constructor
  · simp [passesMinimumContent, Nat.not_lt]
  · intro h1 h2
    constructor
    · simp only [passesMinimumContent, Nat.max_eq_right h2, Bool.not_eq_true',
        decide_eq_false_iff_not, Nat.not_lt]
      exact Nat.le_refl _
    · simp only [passesMinimumContent, Nat.max_eq_right h2, Bool.not_eq_false',
        decide_eq_true_eq]
      omega

theorem min_content_threshold_witness :
    (1 ≤ 2 ∧ 100 ≤ 2 * 50) ∧
    passesMinimumContent (2 * 50) 2 50 = true ∧
    passesMinimumContent (2 * 50 - 1) 2 50 = false :=
  ⟨⟨by decide, by decide⟩,
   ((min_content_threshold 0 2 50).2 (by decide) (by decide)).1,
   ((min_content_threshold 0 2 50).2 (by decide) (by decide)).2⟩

set_option maxRecDepth 1000000 in
/-- Claim C6: the repetition check inspects only the ten most common
trigrams, so a text in which the non-whitespace trigram `aaa` occurs
201 times (more than 200) within the first 10,000 characters passes
the standard quality gate when ten distinct whitespace-only trigrams
are each more frequent — contradicting the documented rule that any
non-whitespace window occurring more than 200 times is rejected; a
single non-whitespace trigram occurring exactly 200 times passes, as
claimed. -/
theorem repetition_gate_misses_eleventh_trigram :
    countTri (trigrams (repetitionEvasionText.take 10000)) ('a', 'a', 'a')
        = 201 ∧
    trigramHasNonWhitespace ('a', 'a', 'a') = true ∧
    passesQualityCheck evasionResult 1 defaultQualitySettings = true ∧
    passesQualityCheck exactly200Result 1 defaultQualitySettings = true ∧
    countTri (trigrams (exactly200Result.markdown.take 10000)) ('a', 'a', 'a')
        = 200 := by
  decide

/-- Claim C7: across any sequence of filing-store operations (creations
and stage transitions), the retry count of the filing at any table
position never decreases; and a successful `mark_step_complete`
transition changes the addressed filing's retry count by exactly one
when an error message is supplied and by zero otherwise. -/
theorem retry_count_monotone_and_increment :
    (∀ (db : List Filing) (ops : List StoreOp) (i : Nat) (f f' : Filing),
        db[i]? = some f → (runStoreOps db ops)[i]? = some f' →
        f.retryCount ≤ f'.retryCount) ∧
    (∀ (db : List Filing) (fid step status : String) (error : Option String)
        (db' : List Filing) (f f' : Filing),
        markStepComplete db fid step status error = Except.ok db' →
        getFilingById db fid = some f → getFilingById db' fid = some f' →
        f'.retryCount = f.retryCount +
          (match error with | some _ => 1 | none => 0)) := by
  constructor
  · intro db ops i f f' hf hf'
    obtain ⟨f'', h'', hle⟩ := runStoreOps_retry_mono ops db i f hf
    rw [hf'] at h''
    rw [Option.some.inj h'']
    exact hle
  · intro db fid step status error db' f f' hok hf hf'
    have hv : step ∈ VALID_STEPS := by
      by_contra hnv
      simp [markStepComplete, hnv] at hok
    unfold markStepComplete at hok
    rw [if_pos hv, hf] at hok
    injection hok with hdb
    subst hdb
    have hg : ∀ x : Filing,
        ((fun f => applyTransitionError (setStatusField f step status) error)
          x).filingId = x.filingId := by
      intro x
      rw [applyTransitionError_filingId, setStatusField_filingId]
    have hupd := getFilingById_updateFilingById db fid _ hg f hf
    rw [hupd] at hf'
    rw [← Option.some.inj hf']
    cases error with
    | none => simp [applyTransitionError, setStatusField_retry]
    | some e => simp [applyTransitionError, setStatusField_retry]

theorem retry_count_monotone_and_increment_witness :
    (witnessDb[0]? = some witnessFilingBase ∧
      (runStoreOps witnessDb witnessOps)[0]? = some witnessFilingFinal ∧
      witnessFilingBase.retryCount ≤ witnessFilingFinal.retryCount) ∧
    (markStepComplete witnessDb "W1" "downloaded" "failed" (some "boom")
        = Except.ok [witnessFilingFailed] ∧
      getFilingById witnessDb "W1" = some witnessFilingBase ∧
      getFilingById [witnessFilingFailed] "W1" = some witnessFilingFailed ∧
      witnessFilingFailed.retryCount = witnessFilingBase.retryCount + 1) :=
  ⟨⟨by decide, by rfl,
    retry_count_monotone_and_increment.1 witnessDb witnessOps 0
      witnessFilingBase witnessFilingFinal (by decide) (by rfl)⟩,
   ⟨by rfl, by decide, by decide,
    retry_count_monotone_and_increment.2 witnessDb "W1" "downloaded" "failed"
      (some "boom") [witnessFilingFailed] witnessFilingBase witnessFilingFailed
      (by rfl) (by decide) (by decide)⟩⟩

/-- Claim C10: a stage transition recording a success (no error
argument) changes only the addressed stage-status field of the filing:
its error message, retry count, identifier, analysis payload, document
collection and all other stage statuses keep their previous values. -/
theorem success_transition_frame (db : List Filing)
    (fid step status : String) (db' : List Filing) (f f' : Filing)
    (hok : markStepComplete db fid step status none = Except.ok db')
    (hf : getFilingById db fid = some f)
    (hf' : getFilingById db' fid = some f') :
    f'.errorMessage = f.errorMessage ∧
    f'.retryCount = f.retryCount ∧
    f'.filingId = f.filingId ∧
    f'.analysisJson = f.analysisJson ∧
    f'.documents = f.documents ∧
    statusOf f' step = status ∧
    (∀ s, s ∈ VALID_STEPS → s ≠ step → statusOf f' s = statusOf f s) := by
  have hv : step ∈ VALID_STEPS := by
    by_contra hnv
    simp [markStepComplete, hnv] at hok
  unfold markStepComplete at hok
  rw [if_pos hv, hf] at hok
  injection hok with hdb
  subst hdb
  have hg : ∀ x : Filing,
      ((fun f => applyTransitionError (setStatusField f step status) none)
        x).filingId = x.filingId := by
    intro x
    rw [applyTransitionError_filingId, setStatusField_filingId]
  have hupd := getFilingById_updateFilingById db fid _ hg f hf
  rw [hupd] at hf'
  have hfeq : f' = setStatusField f step status :=
    (Option.some.inj hf').symm
  subst hfeq
  refine ⟨setStatusField_errorMessage f step status,
    setStatusField_retry f step status,
    setStatusField_filingId f step status,
    setStatusField_analysisJson f step status,
    setStatusField_documents f step status, ?_, ?_⟩
  · simp only [VALID_STEPS, List.mem_cons, List.mem_singleton,
      List.not_mem_nil, or_false] at hv
    rcases hv with rfl | rfl | rfl | rfl | rfl <;>
      simp [setStatusField, statusOf]
  · intro s hs hne
    simp only [VALID_STEPS, List.mem_cons, List.mem_singleton,
      List.not_mem_nil, or_false] at hv hs
    rcases hv with rfl | rfl | rfl | rfl | rfl <;>
      rcases hs with rfl | rfl | rfl | rfl | rfl <;>
      first
        | exact absurd rfl hne
        | simp [setStatusField, statusOf]

theorem success_transition_frame_witness :
    (markStepComplete witnessDb "W1" "extracted" "success" none
        = Except.ok [witnessFilingExtracted] ∧
      getFilingById witnessDb "W1" = some witnessFilingBase ∧
      getFilingById [witnessFilingExtracted] "W1"
        = some witnessFilingExtracted) ∧
    witnessFilingExtracted.errorMessage = witnessFilingBase.errorMessage ∧
    witnessFilingExtracted.retryCount = witnessFilingBase.retryCount ∧
    statusOf witnessFilingExtracted "extracted" = "success" ∧
    statusOf witnessFilingExtracted "downloaded"
      = statusOf witnessFilingBase "downloaded" :=
  ⟨⟨by rfl, by decide, by decide⟩,
   (success_transition_frame witnessDb "W1" "extracted" "success"
      [witnessFilingExtracted] witnessFilingBase witnessFilingExtracted
      (by rfl) (by decide) (by decide)).1,
   (success_transition_frame witnessDb "W1" "extracted" "success"
      [witnessFilingExtracted] witnessFilingBase witnessFilingExtracted
      (by rfl) (by decide) (by decide)).2.1,
   (success_transition_frame witnessDb "W1" "extracted" "success"
      [witnessFilingExtracted] witnessFilingBase witnessFilingExtracted
      (by rfl) (by decide) (by decide)).2.2.2.2.2.1,
   (success_transition_frame witnessDb "W1" "extracted" "success"
      [witnessFilingExtracted] witnessFilingBase witnessFilingExtracted
      (by rfl) (by decide) (by decide)).2.2.2.2.2.2 "downloaded"
     (by decide) (by decide)⟩

end CerScraper
